import Mathlib

/-!
Shallow embedding of the SEO-auditor backend (`src/app.py`): a Flask app with
user registration/login over a SQLite `users` table, and a `/generate-fix`
proxy endpoint that builds a prompt for an external completion API and relays
a cleaned suggestion.  Pure Python string operations are modelled over
`List Char` with structural recursion so that every definition evaluates by
kernel reduction; the SQLite table is a list of rows plus the AUTOINCREMENT
counter; the network and the random salt drawn by `werkzeug` are explicit
inputs to the functions they influence.
-/

namespace SeoAuditor

/-! ## Python string primitives -/

/-- Whitespace stripped by Python's `str.strip()` (the ASCII part, which is all
the claims exercise). -/
def isPyWs (c : Char) : Bool :=
  c == ' ' || c == '\t' || c == '\n' || c == '\r' || c == '\x0b' || c == '\x0c'

/-- Python `s.strip()`: drop leading and trailing whitespace. -/
def pyStrip (s : String) : String :=
  ⟨((s.data.dropWhile isPyWs).reverse.dropWhile isPyWs).reverse⟩

/-- Python `s.replace('"', '')`: remove every double-quote character. -/
def removeQuotes (s : String) : String :=
  ⟨s.data.filter (fun c => !(c == '"'))⟩

/-- `pat` starts the list `s`. -/
def startsWith (pat s : List Char) : Bool :=
  match pat, s with
  | [], _ => true
  | _ :: _, [] => false
  | p :: ps, c :: cs => p == c && startsWith ps cs

/-- `pat` occurs contiguously somewhere in `s`. -/
def occursIn (pat s : List Char) : Bool :=
  match s with
  | [] => startsWith pat []
  | _ :: cs => startsWith pat s || occursIn pat cs

/-- Python `pat in s` on strings: containment of a contiguous substring. -/
def containsStr (s pat : String) : Bool :=
  occursIn pat.data s.data

/-- Split a character list at every occurrence of `c` (Python `s.split(c)`). -/
def splitOnChar (c : Char) : List Char → List (List Char)
  | [] => [[]]
  | x :: xs =>
    let r := splitOnChar c xs
    if x == c then [] :: r
    else
      match r with
      | [] => [[x]]
      | y :: ys => (x :: y) :: ys

/-! ## Password hashing (werkzeug `generate_password_hash` / `check_password_hash`)

The library is outside the repository; it is modelled by its documented
observable behaviour: the stored text is `method$salt$digest` where the method
is werkzeug's default `scrypt:32768:8:1`, the salt is the random per-call salt
(an explicit argument of the model, drawn by the environment), and the digest
is a deterministic function of password and salt.  The cryptographic digest
itself is opaque to every claim; the model uses a concrete total stand-in whose
output contains only lowercase letters (so it never collides with the `$`
separators). -/

/-- Deterministic stand-in for the scrypt digest of (password, salt); the
claims use only that it is a total deterministic function whose output has no
`$` character and has length `password.length + salt.length + 1`. -/
def scryptDigest (password salt : String) : String :=
  ⟨(password.data ++ ':' :: salt.data).map (fun c => Char.ofNat (97 + (c.toNat * 31 + 7) % 26))⟩

/-- werkzeug's default hash method string. -/
def HASH_METHOD : String := "scrypt:32768:8:1"

/-- Model of `werkzeug.security.generate_password_hash(password)`: the random
per-call salt is an explicit argument; the output embeds method, salt and
digest separated by `$`. -/
def generate_password_hash (password salt : String) : String :=
  HASH_METHOD ++ "$" ++ salt ++ "$" ++ scryptDigest password salt

/-- Model of `werkzeug.security.check_password_hash(pwhash, password)`: parse
the stored value as `method$salt$digest` and recompute the digest. -/
def check_password_hash (pwhash password : String) : Bool :=
  match splitOnChar '$' pwhash.data with
  | [_method, salt, digest] => scryptDigest password ⟨salt⟩ == (⟨digest⟩ : String)
  | _ => false

/-! ## Credential store (`users` table) -/

/-- One row of the `users` table. -/
structure User where
  user_id : Nat
  first_name : String
  last_name : String
  email : String
  password_hash : String
  deriving DecidableEq, Repr

/-- The SQLite database: the rows in insertion order plus the AUTOINCREMENT
counter for `user_id` (SQLite assigns row ids starting from 1). -/
structure Store where
  users : List User
  next_id : Nat
  deriving DecidableEq, Repr

/-- The freshly created `users` table. -/
def Store.init : Store := ⟨[], 1⟩

/-! ## HTTP bodies and endpoint models -/

/-- The JSON bodies the modelled endpoints produce.  `registered` and
`loggedIn` correspond to the success objects (both carry `"success": true`,
folded into the constructor); `loggedIn` has exactly the four public fields
and no password-hash field. -/
inductive Body where
  | error (msg : String)
  | errorDetails (msg details : String)
  | registered (message : String) (userId : Nat)
  | loggedIn (userId : Nat) (firstName lastName email : String)
  | suggestion (text : String)
  deriving DecidableEq, Repr

/-- An HTTP response: status code and JSON body. -/
abbrev Response := Nat × Body

/-- Python truthiness of an optional JSON string field (`None` and `""` are
falsy). -/
def truthy : Option String → Bool
  | none => false
  | some s => !s.data.isEmpty

/-- Request body of `POST /auth/register`. -/
structure RegisterRequest where
  firstName : Option String
  lastName : Option String
  email : Option String
  password : Option String
  deriving Repr

/-- Request body of `POST /auth/login`. -/
structure LoginRequest where
  email : Option String
  password : Option String
  deriving Repr

/-- `register` (src/app.py lines 54-84).  `salt` is the random salt the
environment supplies to `generate_password_hash` for this call.  The SQLite
`INSERT` raising `IntegrityError` on a duplicate email is modelled by the
duplicate test on the rows; on success the row is appended with
`user_id = next_id` and the counter advances. -/
def register (st : Store) (salt : String) (req : RegisterRequest) : Response × Store :=
  if !(truthy req.firstName && truthy req.lastName && truthy req.email && truthy req.password) then
    ((400, .error "Missing required fields."), st)
  else
    let first_name := req.firstName.getD ""
    let last_name := req.lastName.getD ""
    let email := req.email.getD ""
    let password := req.password.getD ""
    let password_hash := generate_password_hash password salt
    if st.users.any (fun u => u.email == email) then
      ((409, .error "Email already registered."), st)
    else
      ((201, .registered "Registration successful." st.next_id),
       ⟨st.users ++ [⟨st.next_id, first_name, last_name, email, password_hash⟩], st.next_id + 1⟩)

/-- `login` (src/app.py lines 86-108).  `SELECT * FROM users WHERE email = ?`
followed by `fetchone()` is the first row with that email. -/
def login (st : Store) (req : LoginRequest) : Response :=
  if !(truthy req.email && truthy req.password) then
    (400, .error "Missing email or password.")
  else
    let email := req.email.getD ""
    let password := req.password.getD ""
    match st.users.find? (fun u => u.email == email) with
    | some user =>
      if check_password_hash user.password_hash password then
        (200, .loggedIn user.user_id user.first_name user.last_name user.email)
      else
        (401, .error "Invalid email or password.")
    | none => (401, .error "Invalid email or password.")

/-! ## Suggestion prompt builder and external completion client
(`/generate-fix`, src/app.py lines 112-172) -/

/-- The fixed upstream endpoint URL (src/app.py line 11). -/
def GEMINI_API_URL : String :=
  "https://generativelanguage.googleapis.com/v1beta/models/gemini-2.5-flash-preview-09-2025:generateContent"

/-- Request body of `POST /generate-fix`: `issueId` and the `context` JSON
object (absent `context` defaults to the empty object, so it is represented
directly as a, possibly empty, association list of string fields). -/
structure GenerateFixRequest where
  issueId : Option String
  context : List (String × String)
  deriving Repr

/-- Python `context.get(key, default)` on the context object. -/
def ctxGet (context : List (String × String)) (key dflt : String) : String :=
  match context.find? (fun kv => kv.1 == key) with
  | some kv => kv.2
  | none => dflt

/-- The `no-h1` f-string up to `{current_topic}` (line 130). -/
def noH1Pre : String :=
  "Act as an expert SEO copywriter. Generate a concise, highly engaging H1 tag (single sentence, no quotes) for a webpage about the topic: '"

/-- The `no-h1` f-string after `{current_topic}` (line 130). -/
def noH1Post : String := "'. The H1 must target strong search intent."

/-- The `title-length` f-string up to `{original_title}` (line 134). -/
def titlePre : String :=
  "Act as an expert SEO consultant. Shorten the following webpage title to under 60 characters for maximum SEO effectiveness and better search results display, keeping the core meaning: \""

/-- The `title-length` f-string after `{original_title}` (line 134). -/
def titlePost : String := "\""

/-- The `image-alt-text` f-string up to `{image_src}` (line 138). -/
def altPre : String :=
  "Act as an accessibility specialist. Write a brief, descriptive alt text (under 12 words, no quotes) for an image that is described as '"

/-- The `image-alt-text` f-string after `{image_src}` (line 138). -/
def altPost : String := "'. Focus on describing the image content for screen readers and SEO."

/-- The `meta-description` f-string up to `{current_topic}` (line 142). -/
def metaPre : String :=
  "Act as an expert marketer. Write a compelling meta description (under 160 characters, no quotes) for a webpage about '"

/-- The `meta-description` f-string after `{current_topic}` (line 142). -/
def metaPost : String := "' to maximize click-through rates from search results. Make it action-oriented and relevant."

/-- The prompt-construction chain of `generate_fix` (lines 128-145): one
template per supported `issueId`, substituting the context field with its
stated default when absent; `none` models the `else` branch (unsupported
issueId). -/
def buildPrompt (issue_id : String) (context : List (String × String)) : Option String :=
  if issue_id == "no-h1" then
    some (noH1Pre ++ ctxGet context "topic" "a generic web page" ++ noH1Post)
  else if issue_id == "title-length" then
    some (titlePre ++ ctxGet context "title" "A very long, unoptimized title." ++ titlePost)
  else if issue_id == "image-alt-text" then
    some (altPre ++ ctxGet context "src" "a corporate logo" ++ altPost)
  else if issue_id == "meta-description" then
    some (metaPre ++ ctxGet context "topic" "company services and features" ++ metaPost)
  else
    none

/-- One element of a candidate's `content.parts`; the `text` key may be
absent (`KeyError`). -/
structure GeminiPart where
  text : Option String
  deriving Repr

/-- A candidate's `content` object; the `parts` key may be absent. -/
structure GeminiContent where
  parts : Option (List GeminiPart)
  deriving Repr

/-- One candidate; the `content` key may be absent. -/
structure GeminiCandidate where
  content : Option GeminiContent
  deriving Repr

/-- The parsed JSON body of a 2xx upstream response; the `candidates` key may
be absent. -/
structure GeminiResult where
  candidates : Option (List GeminiCandidate)
  deriving Repr

/-- What the single `requests.post` call to the upstream API produced — an
input of the model, since the network is external.  `httpError` is a non-2xx
response: `raise_for_status()` raises an `HTTPError` carrying the response
(its status, HTTP reason phrase, body text, and the body parsed as JSON when
parseable — `jsonBody = none` models `response.json()` raising `ValueError`).
`connectionError` is a `RequestException` with no response attached
(`e.response is None`), carrying `str(e)`. -/
inductive UpstreamOutcome where
  | success (result : GeminiResult)
  | httpError (status : Nat) (reason : String) (jsonBody : Option String) (text : String)
  | connectionError (msg : String)
  deriving Repr

/-- `result['candidates'][0]['content']['parts'][0]['text']` (line 157):
`none` models the `KeyError`/`IndexError` path. -/
def extractSuggestion (r : GeminiResult) : Option String :=
  match r.candidates with
  | none => none
  | some [] => none
  | some (c :: _) =>
    match c.content with
    | none => none
    | some ct =>
      match ct.parts with
      | none => none
      | some [] => none
      | some (p :: _) => p.text

/-- `requests`' textual rendering `str(e)` of the `HTTPError` raised by
`raise_for_status()` for a status in 400..599 (modelled from the library:
`"{status} Client Error: {reason} for url: {url}"` for 4xx, `Server Error`
for 5xx). -/
def httpErrorStr (status : Nat) (reason url : String) : String :=
  if status < 500 then
    toString status ++ " Client Error: " ++ reason ++ " for url: " ++ url
  else
    toString status ++ " Server Error: " ++ reason ++ " for url: " ++ url

/-- The `error_details` computation of the except-branch (lines 163-168):
start from `"An unknown error occurred."`; when the exception carries a
response, take its body parsed as JSON if parseable, else its raw text.
(In the source this value is computed and then never used — the returned
body carries `str(e)` instead.) -/
def errorDetailsOf : UpstreamOutcome → String
  | .httpError _ _ (some j) _ => j
  | .httpError _ _ none t => t
  | _ => "An unknown error occurred."

/-- `generate_fix` (src/app.py lines 112-172).  `apiKey` is the
`GEMINI_API_KEY` environment variable (`none` when unset); `upstream` is what
the single call to the external API produces, consumed only after the key
check, the `issueId` presence check and the prompt construction succeed. -/
def generate_fix (apiKey : Option String) (req : GenerateFixRequest)
    (upstream : UpstreamOutcome) : Response :=
  if !(truthy apiKey) then
    (500, .error "Gemini API key is not configured on the server.")
  else
    match req.issueId with
    | none => (400, .error "issueId is required.")
    | some issue_id =>
      if issue_id.data.isEmpty then
        (400, .error "issueId is required.")
      else
        match buildPrompt issue_id req.context with
        | none => (400, .error "Unsupported issueId for AI content generation.")
        | some _prompt =>
          match upstream with
          | .success result =>
            match extractSuggestion result with
            | some text => (200, .suggestion (removeQuotes (pyStrip text)))
            | none => (500, .error "Invalid response format from the Gemini API.")
          | .httpError status reason _jsonBody _text =>
            (502, .errorDetails
              "Failed to communicate with the Gemini API. Check API key or quota."
              (httpErrorStr status reason GEMINI_API_URL))
          | .connectionError msg =>
            (502, .errorDetails
              "Failed to communicate with the Gemini API. Check API key or quota."
              msg)

/-! ## Concrete fixtures used by the witnesses -/

/-- A store holding one registered user (Ada, password `pw123` hashed with a
16-character salt), as left by a successful registration on a fresh table. -/
def wStore : Store :=
  ⟨[⟨1, "Ada", "Lovelace", "ada@example.com",
      generate_password_hash "pw123" "abcdefghijklmnop"⟩], 2⟩

/-- Ada's stored row in `wStore`. -/
def wUser : User :=
  ⟨1, "Ada", "Lovelace", "ada@example.com",
    generate_password_hash "pw123" "abcdefghijklmnop"⟩

/-- A second registration attempt reusing Ada's email. -/
def wReq : RegisterRequest :=
  ⟨some "Bob", some "Builder", some "ada@example.com", some "pw999"⟩

/-- A fresh registration request against the empty store. -/
def wFreshReq : RegisterRequest :=
  ⟨some "Ada", some "Lovelace", some "ada@example.com", some "pw123"⟩

/-! ## Helper lemmas -/

theorem data_append (a b : String) : (a ++ b).data = a.data ++ b.data := rfl

theorem length_eq_data_length (s : String) : s.length = s.data.length := rfl

theorem truthy_some_of_ne (s : String) (h : s ≠ "") : truthy (some s) = true := by
  cases s with
  | mk l =>
    cases l with
    | nil => exact absurd rfl h
    | cons c cs => rfl

theorem startsWith_append_self (pat r : List Char) : startsWith pat (pat ++ r) = true := by
  induction pat with
  | nil => rfl
  | cons c cs ih => simp [startsWith, ih]

theorem occursIn_append_self (pat r : List Char) : occursIn pat (pat ++ r) = true := by
  cases pat with
  | nil =>
    cases r with
    | nil => rfl
    | cons c cs => rfl
  | cons p ps =>
    show occursIn (p :: ps) (p :: (ps ++ r)) = true
    simp only [occursIn, Bool.or_eq_true]
    exact Or.inl (startsWith_append_self (p :: ps) r)

theorem occursIn_append_left (pat s l : List Char) (h : occursIn pat s = true) :
    occursIn pat (l ++ s) = true := by
  induction l with
  | nil => simpa using h
  | cons c cs ih =>
    show occursIn pat (c :: (cs ++ s)) = true
    simp only [occursIn, Bool.or_eq_true]
    exact Or.inr ih

/-- A string is contained in any concatenation that has it as the middle
segment. -/
theorem containsStr_middle (a b c : String) : containsStr (a ++ b ++ c) b = true := by
  unfold containsStr
  have hd : (a ++ b ++ c).data = a.data ++ (b.data ++ c.data) := by
    rw [data_append, data_append, List.append_assoc]
  rw [hd]
  exact occursIn_append_left _ _ _ (occursIn_append_self b.data c.data)

/-- The length of a modelled stored hash, in terms of password and salt
length (the method tag and the two separators account for the constant). -/
theorem gph_length (p s : String) :
    (generate_password_hash p s).length = p.length + 2 * s.length + 19 := by
  have h1 : (generate_password_hash p s).data
      = HASH_METHOD.data ++ "$".data ++ s.data ++ "$".data ++ (scryptDigest p s).data := rfl
  have h2 : (scryptDigest p s).data.length = p.data.length + (s.data.length + 1) := by
    simp [scryptDigest]
  rw [length_eq_data_length, h1]
  simp only [List.length_append, h2]
  have hM : HASH_METHOD.data.length = 16 := rfl
  have hD : ("$" : String).data.length = 1 := rfl
  rw [hM, hD, length_eq_data_length, length_eq_data_length]
  omega

/-- The stored hash is always strictly longer than the plaintext password, so
the store never holds the plaintext. -/
theorem gph_ne_plaintext (p s : String) : generate_password_hash p s ≠ p := by
  intro h
  have hlen := congrArg String.length h
  rw [gph_length] at hlen
  omega

/-! ## Claim theorems: authentication -/

/-- C1: for every store and every login request with email and password
present, if the email matches no stored row, or the first row with that email
fails the password check, `login` returns status 401 with the one fixed error
body `{"error": "Invalid email or password."}` — the same literal response in
both cases, so the response does not reveal whether the email exists. -/
theorem login_rejects_uniformly (st : Store) (email password : String)
    (he : email ≠ "") (hp : password ≠ "")
    (hbad : ∀ u, st.users.find? (fun v => v.email == email) = some u →
      check_password_hash u.password_hash password = false) :
    login st ⟨some email, some password⟩ = (401, Body.error "Invalid email or password.") := by
  unfold login
  rw [truthy_some_of_ne email he, truthy_some_of_ne password hp]
  simp only [Bool.and_self, Bool.not_true, Bool.false_eq_true, if_false, Option.getD_some]
  cases hfind : st.users.find? (fun v => v.email == email) with
  | none => rfl
  | some u => simp [hbad u hfind]

/-- Witness for C1: Ada is registered, the request carries her email with a
wrong password, and the response is the fixed 401 body. -/
theorem login_rejects_uniformly_witness :
    login wStore ⟨some "ada@example.com", some "wrongpw"⟩
      = (401, Body.error "Invalid email or password.") :=
  login_rejects_uniformly wStore "ada@example.com" "wrongpw"
    (by decide) (by decide)
    (fun u hu => by
      rw [show wStore.users.find? (fun v => v.email == "ada@example.com") = some wUser
        from by decide] at hu
      injection hu with h
      subst h
      decide)

/-- C2: a registration with all fields present whose email already has exactly
one row in the store returns 409 `{"error": "Email already registered."}`,
returns the store unchanged (the failed insert adds nothing), and therefore
leaves exactly one row with that email. -/
theorem register_duplicate_conflict (st : Store) (salt : String) (req : RegisterRequest)
    (hf : truthy req.firstName = true) (hl : truthy req.lastName = true)
    (he : truthy req.email = true) (hp : truthy req.password = true)
    (hdup : (st.users.filter (fun u => u.email == req.email.getD "")).length = 1) :
    register st salt req = ((409, Body.error "Email already registered."), st)
    ∧ ((register st salt req).2.users.filter
        (fun u => u.email == req.email.getD "")).length = 1 := by
  have hany : st.users.any (fun u => u.email == req.email.getD "") = true := by
    obtain ⟨u, hu⟩ := List.length_eq_one.mp hdup
    have hmem : u ∈ st.users.filter (fun u => u.email == req.email.getD "") := by
      rw [hu]; exact List.mem_singleton_self u
    have hm := List.mem_filter.mp hmem
    exact List.any_eq_true.mpr ⟨u, hm.1, hm.2⟩
  have hmain : register st salt req = ((409, Body.error "Email already registered."), st) := by
    unfold register
    rw [hf, hl, he, hp]
    simp only [Bool.and_self, Bool.not_true, Bool.false_eq_true, if_false]
    rw [hany]
    rfl
  exact ⟨hmain, by rw [hmain]; exact hdup⟩

/-- Witness for C2: registering Bob with Ada's email against `wStore` yields
409 and the store still holds exactly Ada's row for that email. -/
theorem register_duplicate_conflict_witness :
    register wStore "ponmlkjihgfedcba" wReq
      = ((409, Body.error "Email already registered."), wStore)
    ∧ ((register wStore "ponmlkjihgfedcba" wReq).2.users.filter
        (fun u => u.email == wReq.email.getD "")).length = 1 :=
  register_duplicate_conflict wStore "ponmlkjihgfedcba" wReq
    (by decide) (by decide) (by decide) (by decide) (by decide)

/-- C3: a registration whose four fields are present and non-empty and whose
email is fresh returns 201 with `userId = next_id` (positive, since SQLite
assigns row ids from 1 and the counter never decreases), and appends exactly
one row holding that email and the salted hash of the password; the stored
hash is never the plaintext password. -/
theorem register_fresh_success (st : Store) (salt : String) (req : RegisterRequest)
    (hf : truthy req.firstName = true) (hl : truthy req.lastName = true)
    (he : truthy req.email = true) (hp : truthy req.password = true)
    (hfresh : ∀ u ∈ st.users, u.email ≠ req.email.getD "")
    (hpos : 0 < st.next_id) :
    register st salt req =
      ((201, Body.registered "Registration successful." st.next_id),
       ⟨st.users ++ [⟨st.next_id, req.firstName.getD "", req.lastName.getD "",
          req.email.getD "", generate_password_hash (req.password.getD "") salt⟩],
        st.next_id + 1⟩)
    ∧ 0 < st.next_id
    ∧ generate_password_hash (req.password.getD "") salt ≠ req.password.getD "" := by
  have hany : st.users.any (fun u => u.email == req.email.getD "") = false := by
    rw [List.any_eq_false]
    intro u hu
    simpa using hfresh u hu
  refine ⟨?_, hpos, gph_ne_plaintext _ _⟩
  unfold register
  rw [hf, hl, he, hp]
  simp only [Bool.and_self, Bool.not_true, Bool.false_eq_true, if_false]
  rw [hany]
  rfl

/-- Witness for C3: registering Ada on the empty store yields 201 with
userId 1 and appends her row with the hashed password. -/
theorem register_fresh_success_witness :
    register Store.init "abcdefghijklmnop" wFreshReq =
      ((201, Body.registered "Registration successful." Store.init.next_id),
       ⟨Store.init.users ++ [⟨Store.init.next_id, wFreshReq.firstName.getD "",
          wFreshReq.lastName.getD "", wFreshReq.email.getD "",
          generate_password_hash (wFreshReq.password.getD "") "abcdefghijklmnop"⟩],
        Store.init.next_id + 1⟩)
    ∧ 0 < Store.init.next_id
    ∧ generate_password_hash (wFreshReq.password.getD "") "abcdefghijklmnop"
        ≠ wFreshReq.password.getD "" :=
  register_fresh_success Store.init "abcdefghijklmnop" wFreshReq
    (by decide) (by decide) (by decide) (by decide)
    (fun u hu => absurd hu (List.not_mem_nil u)) (by decide)

/-- C8: a login whose email matches a stored row and whose password passes the
hash check returns 200 with exactly the four public fields of that row —
the `loggedIn` body constructor carries `userId`, `firstName`, `lastName`,
`email` and has no password-hash field, so the hash is never returned. -/
theorem login_success_public_fields (st : Store) (email password : String) (u : User)
    (he : email ≠ "") (hp : password ≠ "")
    (hfind : st.users.find? (fun v => v.email == email) = some u)
    (hcheck : check_password_hash u.password_hash password = true) :
    login st ⟨some email, some password⟩
      = (200, Body.loggedIn u.user_id u.first_name u.last_name u.email) := by
  unfold login
  rw [truthy_some_of_ne email he, truthy_some_of_ne password hp]
  simp only [Bool.and_self, Bool.not_true, Bool.false_eq_true, if_false, Option.getD_some]
  rw [hfind]
  simp [hcheck]

/-- Witness for C8: Ada logs in with the correct password and gets back
exactly her public fields. -/
theorem login_success_public_fields_witness :
    login wStore ⟨some "ada@example.com", some "pw123"⟩
      = (200, Body.loggedIn wUser.user_id wUser.first_name wUser.last_name wUser.email) :=
  login_success_public_fields wStore "ada@example.com" "pw123" wUser
    (by decide) (by decide) (by decide) (by decide)

/-- C9: the hashing step of registration with the same password under two
distinct per-call salts (werkzeug draws a fresh random fixed-length salt on
every call, so two calls give distinct equal-length salts) stores two
different password hashes: the salt is embedded in the stored text, so the
outputs differ whenever the salts do. -/
theorem stored_hashes_differ_for_distinct_salts (password s₁ s₂ : String)
    (hlen : s₁.length = s₂.length) (hne : s₁ ≠ s₂) :
    generate_password_hash password s₁ ≠ generate_password_hash password s₂ := by
  intro h
  apply hne
  have hd := congrArg String.data h
  have e : ∀ s : String, (generate_password_hash password s).data
      = (HASH_METHOD.data ++ "$".data)
        ++ (s.data ++ ("$".data ++ (scryptDigest password s).data)) := by
    intro s
    show HASH_METHOD.data ++ "$".data ++ s.data ++ "$".data ++ (scryptDigest password s).data = _
    simp [List.append_assoc]
  rw [e s₁, e s₂] at hd
  have h1 := List.append_cancel_left hd
  have h2 := List.append_inj h1 hlen
  exact String.ext h2.1

/-- Witness for C9: same password, two distinct 16-character salts, distinct
stored hashes. -/
theorem stored_hashes_differ_for_distinct_salts_witness :
    generate_password_hash "hunter2" "aaaaaaaaaaaaaaaa"
      ≠ generate_password_hash "hunter2" "baaaaaaaaaaaaaaa" :=
  stored_hashes_differ_for_distinct_salts "hunter2" "aaaaaaaaaaaaaaaa" "baaaaaaaaaaaaaaa"
    (by decide) (by decide)

/-! ## Claim theorems: generate-fix -/

/-- C10: with no API key configured (`GEMINI_API_KEY` unset or empty, both
falsy), every request to `/generate-fix` gets 500 with the key-missing error,
whatever the body and the network would have done — the key check runs before
the `issueId` checks, so even a missing or unsupported `issueId` gets 500,
not 400. -/
theorem missing_api_key_500 (apiKey : Option String) (req : GenerateFixRequest)
    (upstream : UpstreamOutcome) (hk : truthy apiKey = false) :
    generate_fix apiKey req upstream
      = (500, Body.error "Gemini API key is not configured on the server.") := by
  unfold generate_fix
  rw [hk]
  rfl

/-- Witness for C10: no key and a body with no `issueId` at all still gets
500, not 400. -/
theorem missing_api_key_500_witness :
    generate_fix none ⟨none, []⟩ (.connectionError "upstream is down")
      = (500, Body.error "Gemini API key is not configured on the server.") :=
  missing_api_key_500 none ⟨none, []⟩ (.connectionError "upstream is down") (by decide)

/-- C7: for every non-empty `issueId` other than the four supported ones,
prompt construction falls through every template (`buildPrompt` gives none)
and the endpoint returns 400 with the unsupported-issueId error, for every
context and independently of the network. -/
theorem unsupported_issue_id_400 (apiKey issue_id : String)
    (context : List (String × String)) (upstream : UpstreamOutcome)
    (hk : apiKey ≠ "") (hne : issue_id ≠ "")
    (h1 : issue_id ≠ "no-h1") (h2 : issue_id ≠ "title-length")
    (h3 : issue_id ≠ "image-alt-text") (h4 : issue_id ≠ "meta-description") :
    buildPrompt issue_id context = none
    ∧ generate_fix (some apiKey) ⟨some issue_id, context⟩ upstream
        = (400, Body.error "Unsupported issueId for AI content generation.") := by
  have hbp : buildPrompt issue_id context = none := by
    unfold buildPrompt
    simp [beq_iff_eq, h1, h2, h3, h4]
  refine ⟨hbp, ?_⟩
  have hid : issue_id.data.isEmpty = false := by
    cases issue_id with
    | mk l =>
      cases l with
      | nil => exact absurd rfl hne
      | cons c cs => rfl
  unfold generate_fix
  rw [truthy_some_of_ne apiKey hk]
  simp only [Bool.not_true, Bool.false_eq_true, if_false, hid, hbp]

/-- Witness for C7: `issueId = "unknown-id"` gets the 400 unsupported error. -/
theorem unsupported_issue_id_400_witness :
    buildPrompt "unknown-id" [] = none
    ∧ generate_fix (some "test-key") ⟨some "unknown-id", []⟩ (.connectionError "n/a")
        = (400, Body.error "Unsupported issueId for AI content generation.") :=
  unsupported_issue_id_400 "test-key" "unknown-id" [] (.connectionError "n/a")
    (by decide) (by decide) (by decide) (by decide) (by decide) (by decide)

/-- C6: for `issueId = "no-h1"` the built prompt is the fixed template around
the topic value — the literal `topic` field when the context carries one
(`ctxGet` returns the stored value), and the default `"a generic web page"`
when it is absent — so the prompt contains that text; and on the spec's test
topic `"coffee shop"` the prompt contains none of the other issueIds'
distinguishing phrases. -/
theorem no_h1_prompt_contents (topic : String) (context : List (String × String))
    (hc : ctxGet context "topic" "a generic web page" = topic) :
    buildPrompt "no-h1" context = some (noH1Pre ++ topic ++ noH1Post)
    ∧ containsStr (noH1Pre ++ topic ++ noH1Post) topic = true
    ∧ buildPrompt "no-h1" [] = some (noH1Pre ++ "a generic web page" ++ noH1Post)
    ∧ containsStr (noH1Pre ++ "a generic web page" ++ noH1Post) "a generic web page" = true
    ∧ containsStr (noH1Pre ++ "coffee shop" ++ noH1Post) "coffee shop" = true
    ∧ containsStr (noH1Pre ++ "coffee shop" ++ noH1Post)
        "Shorten the following webpage title" = false
    ∧ containsStr (noH1Pre ++ "coffee shop" ++ noH1Post) "alt text" = false
    ∧ containsStr (noH1Pre ++ "coffee shop" ++ noH1Post) "meta description" = false := by
  refine ⟨?_, containsStr_middle _ _ _, rfl, containsStr_middle _ _ _,
    containsStr_middle _ _ _, by decide, by decide, by decide⟩
  unfold buildPrompt
  rw [hc]
  rfl

/-- Witness for C6: context `{topic: "coffee shop"}`. -/
theorem no_h1_prompt_contents_witness :
    buildPrompt "no-h1" [("topic", "coffee shop")]
        = some (noH1Pre ++ "coffee shop" ++ noH1Post)
    ∧ containsStr (noH1Pre ++ "coffee shop" ++ noH1Post) "coffee shop" = true
    ∧ buildPrompt "no-h1" [] = some (noH1Pre ++ "a generic web page" ++ noH1Post)
    ∧ containsStr (noH1Pre ++ "a generic web page" ++ noH1Post) "a generic web page" = true
    ∧ containsStr (noH1Pre ++ "coffee shop" ++ noH1Post) "coffee shop" = true
    ∧ containsStr (noH1Pre ++ "coffee shop" ++ noH1Post)
        "Shorten the following webpage title" = false
    ∧ containsStr (noH1Pre ++ "coffee shop" ++ noH1Post) "alt text" = false
    ∧ containsStr (noH1Pre ++ "coffee shop" ++ noH1Post) "meta description" = false :=
  no_h1_prompt_contents "coffee shop" [("topic", "coffee shop")] rfl

/-- C5: whenever the key is configured, the prompt builds, and the upstream
2xx response parses to a result whose first candidate's first part carries
text `t`, the endpoint returns 200 with suggestion `t` stripped of
leading/trailing whitespace and with every double quote removed (in the
source's order: strip, then remove quotes); in particular the text
`Hello "World"` (embedded quotes) yields the suggestion `Hello World`. -/
theorem suggestion_postprocessed (apiKey issue_id prompt t : String)
    (context : List (String × String)) (result : GeminiResult)
    (hk : apiKey ≠ "")
    (hbp : buildPrompt issue_id context = some prompt)
    (hex : extractSuggestion result = some t) :
    generate_fix (some apiKey) ⟨some issue_id, context⟩ (.success result)
      = (200, Body.suggestion (removeQuotes (pyStrip t)))
    ∧ removeQuotes (pyStrip "Hello \"World\"") = "Hello World" := by
  refine ⟨?_, by decide⟩
  have hid : issue_id.data.isEmpty = false := by
    cases issue_id with
    | mk l =>
      cases l with
      | nil => rw [show String.mk [] = "" from rfl] at hbp; simp [buildPrompt] at hbp
      | cons c cs => rfl
  unfold generate_fix
  rw [truthy_some_of_ne apiKey hk]
  simp only [Bool.not_true, Bool.false_eq_true, if_false, hid, hbp, hex]

/-- Witness for C5: a single-candidate response with text
`  Hello "World"  ` yields suggestion `Hello World`. -/
theorem suggestion_postprocessed_witness :
    generate_fix (some "test-key") ⟨some "no-h1", []⟩
        (.success ⟨some [⟨some ⟨some [⟨some "  Hello \"World\"  "⟩]⟩⟩]⟩)
      = (200, Body.suggestion (removeQuotes (pyStrip "  Hello \"World\"  ")))
    ∧ removeQuotes (pyStrip "Hello \"World\"") = "Hello World" :=
  suggestion_postprocessed "test-key" "no-h1"
    (noH1Pre ++ "a generic web page" ++ noH1Post) "  Hello \"World\"  " []
    ⟨some [⟨some ⟨some [⟨some "  Hello \"World\"  "⟩]⟩⟩]⟩
    (by decide) rfl rfl

/-- C4 (the claim fails on the code): at a concrete failing input — key
configured, valid `no-h1` request, upstream replying 429 whose body parses as
JSON — the endpoint does return 502, but its body is the fixed error message
plus `str(e)` (the `HTTPError` rendering, which embeds the upstream status
429); the best-effort upstream error body that lines 163-168 compute into
`error_details` (here the parsed JSON) is dropped: it appears nowhere in the
returned body, contradicting the claim that the response carries it. -/
theorem upstream_error_body_dropped :
    generate_fix (some "test-key") ⟨some "no-h1", []⟩
        (.httpError 429 "Too Many Requests" (some "UPSTREAM-JSON-ERROR-BODY") "UPSTREAM-RAW-TEXT")
      = (502, Body.errorDetails
          "Failed to communicate with the Gemini API. Check API key or quota."
          ("429 Client Error: Too Many Requests for url: " ++ GEMINI_API_URL))
    ∧ errorDetailsOf
        (.httpError 429 "Too Many Requests" (some "UPSTREAM-JSON-ERROR-BODY") "UPSTREAM-RAW-TEXT")
        = "UPSTREAM-JSON-ERROR-BODY"
    ∧ containsStr ("429 Client Error: Too Many Requests for url: " ++ GEMINI_API_URL)
        "UPSTREAM-JSON-ERROR-BODY" = false
    ∧ containsStr "Failed to communicate with the Gemini API. Check API key or quota."
        "UPSTREAM-JSON-ERROR-BODY" = false := by
  exact ⟨by decide, rfl, by decide, by decide⟩

end SeoAuditor
